import Mathlib

/-!
Verification of the CamRenamer core (src/main.py) against its specification.

The file gives a shallow embedding of the parts of `main.py` the properties
talk about: the identity extraction (`extract_vid_pid`), the path discovery
engine (`EnhancedRegistrySearchThread.comprehensive_registry_search` with its
per-strategy helpers and the built-in default options), the rename transactor
(`CamRenamerMainWindow.update_camera_name_in_registry_with_paths`), the backup
thread outcome (`BackupThread.run`) and the synchronous validation in
`CamRenamerMainWindow.rename_selected_camera`.

External effects are modelled as environments supplying their observable
outcomes: every PowerShell invocation (`execute_powershell`) is an oracle value
of type `PSResult`, every direct `winreg` write and every command-based
fallback write is an oracle per registry path, and Python's `list(set(...))`
(whose iteration order is implementation defined) is an arbitrary function
constrained by `PySetValid`.  Diagnostic output (`result_found.emit`) is
modelled as an ordered list of the emitted strings.
-/

namespace CamRenamer

/-- Embedding of the `CameraDevice` dataclass of main.py. -/
structure CameraDevice where
  name : String
  device_id : String
  registry_path : String
  friendly_name : String
  hardware_id : String
  is_connected : Bool
deriving DecidableEq

/-- Search options are a Python dict `str -> bool`; dicts are insertion
ordered, so an association list models both `.get(key, default)` and
iteration over `.items()`. -/
abbrev SearchOptions := List (String × Bool)

/-- Embedding of `dict.get(key, default)` on the options dict. -/
def optGet (opts : SearchOptions) (key : String) (dflt : Bool) : Bool :=
  match opts.find? (fun kv => kv.1 == key) with
  | some kv => kv.2
  | none => dflt

/-- The built-in defaults of `load_default_search_options` (the state used
when no `search_options.json` file overrides them). -/
def load_default_search_options : SearchOptions :=
  [("device_manager_friendly_name", false),
   ("standard_device_paths", true),
   ("device_classes", false),
   ("usb_interfaces", false),
   ("system_drivers", false),
   ("control_entries", false),
   ("powershell_extended", false),
   ("vid_pid_matching", true),
   ("friendly_name_search", false),
   ("skip_next_btn", true)]

/-- Outcome of one `subprocess.run` PowerShell invocation as observed by
`execute_powershell`: either the parsed stdout lines, or a raised exception
message. -/
inductive PSResult where
  | ok (paths : List String)
  | err (msg : String)

/-- Embedding of `EnhancedRegistrySearchThread.execute_powershell`: on success
return the parsed path lines; on an exception emit the error diagnostic and
return the empty list.  Result: (paths, emitted diagnostics). -/
def execute_powershell : PSResult → List String × List String
  | .ok paths => (paths, [])
  | .err msg => ([], ["⚠️ PowerShell execution error: " ++ msg])

/-- Oracle for all external effects reached from
`comprehensive_registry_search`: one PowerShell outcome per strategy query,
and the iteration order Python's `list(set(...))` happens to produce. -/
structure SearchEnv where
  standard_device_paths_q : PSResult
  device_classes_q : PSResult
  usb_interfaces_q : PSResult
  system_drivers_q : PSResult
  control_entries_q : PSResult
  powershell_extended_q : PSResult
  pySetList : List String → List String

/-- A function is a legitimate model of Python's `list(set(xs))` when its
output has no duplicates and has exactly the members of `xs`.  The order is
deliberately unconstrained: CPython's set iteration order is hash based. -/
def PySetValid (f : List String → List String) : Prop :=
  ∀ xs : List String, (f xs).Nodup ∧ ∀ a : String, a ∈ f xs ↔ a ∈ xs

/- ## Identity extraction (`extract_vid_pid`) -/

/-- Case-insensitive character comparison, as used by `re.IGNORECASE` on the
ASCII pattern characters occurring in hardware ids. -/
def ciEqChar (a b : Char) : Bool := a.toLower == b.toLower

/-- The character class `[0-9A-F]` under `re.IGNORECASE`. -/
def isHexDigitCI (c : Char) : Bool :=
  (('0' ≤ c) && (c ≤ '9')) || (('A' ≤ c) && (c ≤ 'F')) || (('a' ≤ c) && (c ≤ 'f'))

/-- Match a literal pattern case-insensitively at the head of the input,
returning the rest of the input. -/
def matchLit : List Char → List Char → Option (List Char)
  | [], rest => some rest
  | _ :: _, [] => none
  | p :: ps, c :: cs => if ciEqChar c p then matchLit ps cs else none

/-- Consume exactly `n` hex digits from the head of the input, returning the
digits (in original case) and the rest. -/
def takeHex : Nat → List Char → Option (List Char × List Char)
  | 0, rest => some ([], rest)
  | _ + 1, [] => none
  | n + 1, c :: cs =>
    if isHexDigitCI c then
      match takeHex n cs with
      | some dr => some (c :: dr.1, dr.2)
      | none => none
    else none

def vidLit : List Char := ['V', 'I', 'D', '_']

def ampPidLit : List Char := ['&', 'P', 'I', 'D', '_']

/-- Match the regex `VID_([0-9A-F]{4})&PID_([0-9A-F]{4})` (IGNORECASE) at the
head of the input, returning the two captured groups. -/
def matchVidPidAt (l : List Char) : Option (List Char × List Char) :=
  (matchLit vidLit l).bind fun r1 =>
    (takeHex 4 r1).bind fun d1r =>
      (matchLit ampPidLit d1r.2).bind fun r3 =>
        (takeHex 4 r3).bind fun d2r => some (d1r.1, d2r.1)

/-- Leftmost search of the pattern, as `re.search` performs it. -/
def scanVidPid : List Char → Option (List Char × List Char)
  | [] => none
  | c :: cs =>
    match matchVidPidAt (c :: cs) with
    | some r => some r
    | none => scanVidPid cs

/-- Embedding of `EnhancedRegistrySearchThread.extract_vid_pid`: empty result
for an empty hardware id or no match, otherwise the rebuilt token
`VID_<group1>&PID_<group2>` with the matched digits kept in their original
case. -/
def extract_vid_pid (camera : CameraDevice) : String :=
  if camera.hardware_id = "" then ""
  else
    match scanVidPid camera.hardware_id.data with
    | some g => "VID_" ++ String.mk g.1 ++ "&PID_" ++ String.mk g.2
    | none => ""

/- ## Discovery strategies -/

/-- Embedding of Python `str.replace(old, new)` for one-character arguments,
used for `device_id.replace("\\", "#")` and `key.replace('_', ' ')`. -/
def pyReplaceChar (old new : Char) (s : String) : String :=
  String.mk (s.data.map (fun x => if x = old then new else x))

/-- Embedding of Python `str.strip()` (for the whitespace characters
occurring in names): drop leading and trailing whitespace. -/
def pyStrip (s : String) : String :=
  String.mk (((s.data.dropWhile Char.isWhitespace).reverse.dropWhile Char.isWhitespace).reverse)

/-- Embedding of Python `str.title()` restricted to its behaviour on the
ASCII option keys: the first letter of each run of letters is uppercased, the
following letters are lowercased. -/
def pyTitleGo : Bool → List Char → List Char
  | _, [] => []
  | prev, c :: cs =>
    (if c.isAlpha then (if prev then c.toLower else c.toUpper) else c) :: pyTitleGo c.isAlpha cs

def pyTitle (s : String) : String := String.mk (pyTitleGo false s.data)

/-- Embedding of `search_device_manager_friendly_name`: unconditionally add
the fixed standard enumeration path for the device id and report it.
Result: (paths, emitted diagnostics). -/
def search_device_manager_friendly_name (camera : CameraDevice) : List String × List String :=
  let paths := ["SYSTEM\\CurrentControlSet\\Enum\\" ++ camera.device_id]
  (paths, ["📂 Added " ++ toString paths.length ++ " Device Manager FriendlyName entries"])

/-- Embedding of `search_standard_device_paths`: silent early return on an
empty argument, otherwise the PowerShell query result plus its found-count
diagnostic. -/
def search_standard_device_paths (q : PSResult) (device_id : String) : List String × List String :=
  if device_id = "" then ([], [])
  else
    let r := execute_powershell q
    (r.1, r.2 ++ ["🎯 Found " ++ toString r.1.length ++ " registry paths with FriendlyName"])

/-- Embedding of `search_device_classes`: silent early return when the
VID/PID token is empty. -/
def search_device_classes (q : PSResult) (vid_pid : String) : List String × List String :=
  if vid_pid = "" then ([], [])
  else
    let r := execute_powershell q
    (r.1, r.2 ++ ["🎯 Found " ++ toString r.1.length ++ " Device Classes entries"])

/-- Embedding of `search_usb_interfaces`: silent early return when the
VID/PID token is empty. -/
def search_usb_interfaces (q : PSResult) (vid_pid : String) : List String × List String :=
  if vid_pid = "" then ([], [])
  else
    let r := execute_powershell q
    (r.1, r.2 ++ ["🔌 Found " ++ toString r.1.length ++ " USB interface entries"])

/-- Embedding of `search_system_drivers`: silent early return when the
VID/PID token is empty. -/
def search_system_drivers (q : PSResult) (vid_pid : String) : List String × List String :=
  if vid_pid = "" then ([], [])
  else
    let r := execute_powershell q
    (r.1, r.2 ++ ["⚙️ Found " ++ toString r.1.length ++ " system driver entries"])

/-- Embedding of `search_control_entries`: silent early return when the
VID/PID token is empty. -/
def search_control_entries (q : PSResult) (vid_pid : String) : List String × List String :=
  if vid_pid = "" then ([], [])
  else
    let r := execute_powershell q
    (r.1, r.2 ++ ["🎛️ Found " ++ toString r.1.length ++ " control panel entries"])

/-- Embedding of `powershell_comprehensive_search`: silent early return when
the VID/PID token is empty. -/
def powershell_comprehensive_search (q : PSResult) (vid_pid : String) : List String × List String :=
  if vid_pid = "" then ([], [])
  else
    let r := execute_powershell q
    (r.1, r.2 ++ ["🔍 Found " ++ toString r.1.length ++ " comprehensive search results"])

/- ## The discovery driver (`comprehensive_registry_search`) -/

/-- The VID/PID value computed at the top of `comprehensive_registry_search`:
extracted only when `vid_pid_matching` is enabled (default `True`). -/
def vid_pid_of (camera : CameraDevice) (opts : SearchOptions) : String :=
  if optGet opts "vid_pid_matching" true then extract_vid_pid camera else ""

/-- The diagnostic emitted for the VID/PID extraction step. -/
def vid_pid_emits (camera : CameraDevice) (opts : SearchOptions) : List String :=
  if optGet opts "vid_pid_matching" true then
    [if extract_vid_pid camera = "" then "🔍 VID/PID extraction: Enabled but no VID/PID found"
     else "🔍 VID/PID extraction: Enabled - " ++ extract_vid_pid camera]
  else ["⏭️ VID/PID matching: Disabled (skipped)"]

/-- Step 0 of the driver: gated on `device_manager_friendly_name`
(call-site default `True`). -/
def step_device_manager (camera : CameraDevice) (opts : SearchOptions) : List String × List String :=
  if optGet opts "device_manager_friendly_name" true then
    search_device_manager_friendly_name camera
  else ([], ["⏭️ Device Manager FriendlyName: Disabled (skipped)"])

/-- Step 1 of the driver: gated on `standard_device_paths` (default `True`);
the argument is `device_id.replace("\\", "#")`. -/
def step_standard_paths (env : SearchEnv) (camera : CameraDevice) (opts : SearchOptions) :
    List String × List String :=
  if optGet opts "standard_device_paths" true then
    search_standard_device_paths env.standard_device_paths_q
      (pyReplaceChar '\\' '#' camera.device_id)
  else ([], ["⏭️ Standard Device Paths: Disabled (skipped)"])

/-- Step 2 of the driver: gated on `device_classes` (default `True`). -/
def step_device_classes (env : SearchEnv) (opts : SearchOptions) (vid_pid : String) :
    List String × List String :=
  if optGet opts "device_classes" true then
    search_device_classes env.device_classes_q vid_pid
  else ([], ["⏭️ Device Classes: Disabled (skipped)"])

/-- Step 3 of the driver: gated on `usb_interfaces` (default `True`). -/
def step_usb_interfaces (env : SearchEnv) (opts : SearchOptions) (vid_pid : String) :
    List String × List String :=
  if optGet opts "usb_interfaces" true then
    search_usb_interfaces env.usb_interfaces_q vid_pid
  else ([], ["⏭️ USB Interfaces: Disabled (skipped)"])

/-- Step 4 of the driver: gated on `system_drivers` (default `False`). -/
def step_system_drivers (env : SearchEnv) (opts : SearchOptions) (vid_pid : String) :
    List String × List String :=
  if optGet opts "system_drivers" false then
    search_system_drivers env.system_drivers_q vid_pid
  else ([], ["⏭️ System Drivers: Disabled (skipped)"])

/-- Step 5 of the driver: gated on `control_entries` (default `False`). -/
def step_control_entries (env : SearchEnv) (opts : SearchOptions) (vid_pid : String) :
    List String × List String :=
  if optGet opts "control_entries" false then
    search_control_entries env.control_entries_q vid_pid
  else ([], ["⏭️ Control Panel Entries: Disabled (skipped)"])

/-- Step 6 of the driver: gated on `powershell_extended` (default `False`). -/
def step_powershell_extended (env : SearchEnv) (opts : SearchOptions) (vid_pid : String) :
    List String × List String :=
  if optGet opts "powershell_extended" false then
    powershell_comprehensive_search env.powershell_extended_q vid_pid
  else ([], ["⏭️ PowerShell Extended Search: Disabled (skipped)"])

/-- The `registry_paths` list accumulated by the driver before deduplication:
the concatenation of the per-strategy results in execution order. -/
def strategy_registry_paths (env : SearchEnv) (camera : CameraDevice) (opts : SearchOptions) :
    List String :=
  (step_device_manager camera opts).1 ++
  (step_standard_paths env camera opts).1 ++
  (step_device_classes env opts (vid_pid_of camera opts)).1 ++
  (step_usb_interfaces env opts (vid_pid_of camera opts)).1 ++
  (step_system_drivers env opts (vid_pid_of camera opts)).1 ++
  (step_control_entries env opts (vid_pid_of camera opts)).1 ++
  (step_powershell_extended env opts (vid_pid_of camera opts)).1

/-- The final filter `[path for path in unique_paths if path and len(path) > 10]`. -/
def path_filter (p : String) : Bool := decide (p ≠ "") && decide (10 < p.length)

/-- The search-summary diagnostics, with `key.replace('_', ' ').title()`
applied to each option key. -/
def search_summary (opts : SearchOptions) (valid_paths : List String) : List String :=
  let enabled := (opts.filter (fun kv => kv.2)).map (fun kv => pyTitle (pyReplaceChar '_' ' ' kv.1))
  let disabled :=
    (opts.filter (fun kv => !kv.2)).map (fun kv => pyTitle (pyReplaceChar '_' ' ' kv.1))
  ["\n📊 Search Summary:",
   "✅ Enabled criteria: " ++ (if enabled.isEmpty then "None" else String.intercalate ", " enabled),
   "⏭️ Skipped criteria: " ++
     (if disabled.isEmpty then "None" else String.intercalate ", " disabled),
   "✅ Found " ++ toString valid_paths.length ++ " unique registry paths"]

/-- Embedding of `EnhancedRegistrySearchThread.comprehensive_registry_search`.
Runs the strategies in their fixed order under their option gates,
deduplicates with `list(set(...))`, filters out falsy and short paths, and
returns `(valid_paths, emitted diagnostics in order)`.  Progress-bar
animation is omitted: it publishes no paths and no `result_found` lines. -/
def comprehensive_registry_search (env : SearchEnv) (camera : CameraDevice)
    (opts : SearchOptions) : List String × List String :=
  let vp := vid_pid_of camera opts
  let s0 := step_device_manager camera opts
  let s1 := step_standard_paths env camera opts
  let s2 := step_device_classes env opts vp
  let s3 := step_usb_interfaces env opts vp
  let s4 := step_system_drivers env opts vp
  let s5 := step_control_entries env opts vp
  let s6 := step_powershell_extended env opts vp
  let registry_paths := s0.1 ++ s1.1 ++ s2.1 ++ s3.1 ++ s4.1 ++ s5.1 ++ s6.1
  let unique_paths := env.pySetList registry_paths
  let valid_paths := unique_paths.filter path_filter
  (valid_paths,
   vid_pid_emits camera opts ++ s0.2 ++ s1.2 ++ s2.2 ++ s3.2 ++ s4.2 ++ s5.2 ++ s6.2 ++
     search_summary opts valid_paths ++ valid_paths.map (fun p => "📝 " ++ p))

/- ## Backup thread (`BackupThread.run`) -/

/-- What `create_registry_backup` produced: the returned backup path (empty
string when the internal try/except swallowed an exception), or an exception
escaping to `run`'s own handler. -/
inductive CreateBackupResult where
  | returned (path : String)
  | raised (msg : String)

/-- The terminal signal of the backup thread as observed by the caller. -/
inductive BackupOutcome where
  | completed (path : String)
  | failed (msg : String)

/-- Embedding of `BackupThread.run`: a non-empty path signals
`backup_completed`, an empty path or an exception signals `backup_failed`. -/
def BackupThread_run : CreateBackupResult → BackupOutcome
  | .returned path =>
    if path ≠ "" then .completed path else .failed "Backup konnte nicht erstellt werden"
  | .raised msg => .failed ("Backup-Error: " ++ msg)

/- ## Rename transactor (`update_camera_name_in_registry_with_paths`) -/

/-- Outcome of the direct `winreg.OpenKey`/`SetValueEx` write at one path:
either it succeeds, or it raises one of the caught exceptions
(`FileNotFoundError`, `PermissionError`, `OSError` — the former two are
subclasses of the latter). -/
inductive DirectWrite where
  | ok
  | oserror
deriving DecidableEq

/-- Outcome of the PowerShell fallback write at one path: `SUCCESS` in
stdout, `PATH_NOT_FOUND`, an in-script `ERROR:` line, or a raised Python
exception (e.g. a timeout), which the loop's `except ...: continue`
swallows. -/
inductive FallbackWrite where
  | success
  | pathNotFound
  | errorMsg (m : String)
  | raised (m : String)

/-- Oracle for the per-path write effects of the rename loop. -/
structure WriteEnv where
  direct : String → DirectWrite
  fallback : String → FallbackWrite

/-- The two write attempts a single loop iteration can make, in order. -/
inductive WriteAttempt where
  | directAttempt
  | fallbackAttempt
deriving DecidableEq

/-- Whether the iteration for one path increments `success_count`: the direct
write succeeded, or it raised and the fallback write printed `SUCCESS`. -/
def locationWriteSucceeds (env : WriteEnv) (p : String) : Bool :=
  match env.direct p with
  | .ok => true
  | .oserror =>
    match env.fallback p with
    | .success => true
    | .pathNotFound => false
    | .errorMsg _ => false
    | .raised _ => false

/-- Embedding of the `for i, registry_path in enumerate(registry_paths)` loop
of `update_camera_name_in_registry_with_paths`: threads `success_count`
through the iterations and records, per path, which write attempts were made
(direct first; the fallback only from the exception handler of the direct
write). -/
def rename_loop (env : WriteEnv) : List String → Nat → Nat × List (String × List WriteAttempt)
  | [], n => (n, [])
  | p :: rest, n =>
    match env.direct p with
    | .ok =>
      let r := rename_loop env rest (n + 1)
      (r.1, (p, [.directAttempt]) :: r.2)
    | .oserror =>
      match env.fallback p with
      | .success =>
        let r := rename_loop env rest (n + 1)
        (r.1, (p, [.directAttempt, .fallbackAttempt]) :: r.2)
      | .pathNotFound =>
        let r := rename_loop env rest n
        (r.1, (p, [.directAttempt, .fallbackAttempt]) :: r.2)
      | .errorMsg _ =>
        let r := rename_loop env rest n
        (r.1, (p, [.directAttempt, .fallbackAttempt]) :: r.2)
      | .raised _ =>
        let r := rename_loop env rest n
        (r.1, (p, [.directAttempt, .fallbackAttempt]) :: r.2)

/-- The aggregate state of `update_camera_name_in_registry_with_paths` at its
return point. -/
structure RenameOutcome where
  success_count : Nat
  total_paths : Nat
  backup_path : String
  backup_success : Bool
  overall : Bool
deriving DecidableEq

/-- Embedding of `CamRenamerMainWindow.update_camera_name_in_registry_with_paths`:
the backup thread runs first and only sets `backup_path`/`backup_success`;
the mutation loop then runs over every provided path unconditionally; the
function returns `success_count > 0`.  The result carries the aggregate
outcome and the per-path attempt trace. -/
def update_camera_name_in_registry_with_paths (env : WriteEnv) (backup : BackupOutcome)
    (registry_paths : List String) : RenameOutcome × List (String × List WriteAttempt) :=
  let backup_path := match backup with | .completed p => p | .failed _ => ""
  let backup_success := match backup with | .completed _ => true | .failed _ => false
  let r := rename_loop env registry_paths 0
  (⟨r.1, registry_paths.length, backup_path, backup_success, decide (0 < r.1)⟩, r.2)

/- ## Validation (`rename_selected_camera`) -/

/-- The synchronous outcomes of `rename_selected_camera` up to the point
where the search worker thread would be started: each rejection happens
before any `EnhancedRegistrySearchThread` is created, so discovery and store
access are never reached.  `startSearch` is the single branch that creates
and starts the worker. -/
inductive RenameValidation where
  | noSelection
  | emptyName
  | nameTooLong
  | sameName
  | startSearch (camera : CameraDevice) (new_name : String)
deriving DecidableEq

/-- Embedding of the validation prefix of
`CamRenamerMainWindow.rename_selected_camera`: selection check, then
`new_name = text().strip()`, empty check, length check (`> 255`), and
identity check against the current friendly name, in source order.  The
user-confirmation dialog that follows can only cancel, never bypass, these
checks. -/
def rename_selected_camera (selected : Option CameraDevice) (raw_name : String) :
    RenameValidation :=
  match selected with
  | none => .noSelection
  | some camera =>
    let new_name := pyStrip raw_name
    if new_name = "" then .emptyName
    else if 255 < new_name.length then .nameTooLong
    else if new_name = camera.friendly_name then .sameName
    else .startSearch camera new_name

/- ## First-seen deduplication and concrete models of `list(set(...))` -/

/-- First-seen-order deduplication: keeps the first occurrence of every
string, skipping later duplicates; `seen` holds the strings already kept.
This is what the specification asserts about the deduplication order. -/
def dedupFS : List String → List String → List String
  | [], _ => []
  | x :: xs, seen => if x ∈ seen then dedupFS xs seen else x :: dedupFS xs (x :: seen)

/-- First-seen deduplication of a list, a concrete function satisfying
`PySetValid`. -/
def dedupFirstSeen (xs : List String) : List String := dedupFS xs []

/-- Another concrete function satisfying `PySetValid`: the same distinct
elements, enumerated in the reverse order.  CPython's string hashing is
randomized, so a set built from the strategies' paths may legitimately
iterate in this order. -/
def revDedup (xs : List String) : List String := (dedupFS xs []).reverse

/- ## Specification-side characterisation of the VID/PID pattern -/

/-- Pointwise case-insensitive equality of two character lists (used to say
a slice of the hardware id matches a literal of the pattern). -/
def ciEqList : List Char → List Char → Bool
  | [], [] => true
  | a :: as, b :: bs => ciEqChar a b && ciEqList as bs
  | _, _ => false

/-- The pattern `VID_([0-9A-F]{4})&PID_([0-9A-F]{4})` (case-insensitive)
matches at the head of `l` with groups `d1` and `d2`.  Stated from the
specification's wording — two 4-hex-digit groups joined by the fixed
markers — independently of the scanner implementation. -/
def VidPidDecompAt (l d1 d2 : List Char) : Prop :=
  ∃ v m suf, l = v ++ d1 ++ m ++ d2 ++ suf ∧
    ciEqList v vidLit = true ∧ ciEqList m ampPidLit = true ∧
    d1.length = 4 ∧ d2.length = 4 ∧
    (∀ c ∈ d1, isHexDigitCI c = true) ∧ (∀ c ∈ d2, isHexDigitCI c = true)

/-- The pattern occurs somewhere in `l`, with groups `d1` and `d2`. -/
def VidPidDecomp (l d1 d2 : List Char) : Prop :=
  ∃ pre rest, l = pre ++ rest ∧ VidPidDecompAt rest d1 d2

/-- The hardware id contains the vendor/product pattern. -/
def HasVidPid (l : List Char) : Prop := ∃ d1 d2, VidPidDecomp l d1 d2

/- ## Concrete instances used by witnesses and counterexamples -/

/-- A PowerShell invocation that succeeded with no output lines. -/
def psEmpty : PSResult := .ok []

/-- Environment where every external query returns nothing and the set
iteration happens to be in first-seen order. -/
def envFS : SearchEnv :=
  ⟨psEmpty, psEmpty, psEmpty, psEmpty, psEmpty, psEmpty, dedupFirstSeen⟩

/-- Environment where the standard-paths query returns one long path and the
set iteration happens to be in reverse order. -/
def envRev : SearchEnv :=
  ⟨.ok ["SYSTEM\\ControlSet\\X\\LongPath1"], psEmpty, psEmpty, psEmpty, psEmpty, psEmpty,
   revDedup⟩

/-- A device record with a well-formed hardware id. -/
def camA : CameraDevice :=
  ⟨"cam", "USB\\VID_1234&PID_5678\\6&ABC", "", "Old Cam", "USB\\VID_1234&PID_5678", true⟩

/-- A device record whose hardware id is empty, so no vendor/product token
can be extracted. -/
def camNoHw : CameraDevice := ⟨"cam", "USB\\V\\1", "", "Old Cam", "", true⟩

/-- A device record whose hardware id contains the vendor/product pattern in
mixed case. -/
def camHw : CameraDevice := ⟨"cam", "id", "", "Old Cam", "USB\\Vid_0a5C&pid_4500", true⟩

/-- Options enabling only the token-dependent `device_classes` strategy
(plus token extraction itself). -/
def optsC2 : SearchOptions :=
  [("device_manager_friendly_name", false), ("standard_device_paths", false),
   ("device_classes", true), ("usb_interfaces", false), ("system_drivers", false),
   ("control_entries", false), ("powershell_extended", false), ("vid_pid_matching", true)]

/-- Options enabling the canonical-path strategy and the standard-paths
strategy only, with token extraction disabled. -/
def optsC3 : SearchOptions :=
  [("device_manager_friendly_name", true), ("standard_device_paths", true),
   ("vid_pid_matching", false), ("device_classes", false), ("usb_interfaces", false),
   ("system_drivers", false), ("control_entries", false), ("powershell_extended", false)]

/-- Options enabling only the canonical-path strategy. -/
def optsDM : SearchOptions :=
  [("device_manager_friendly_name", true), ("standard_device_paths", false),
   ("device_classes", false), ("usb_interfaces", false), ("system_drivers", false),
   ("control_entries", false), ("powershell_extended", false), ("vid_pid_matching", true)]

/-- A concrete write environment: the direct write succeeds on the canonical
path and raises elsewhere, and the fallback write always fails. -/
def wenvA : WriteEnv :=
  ⟨fun p => if p = "SYSTEM\\CurrentControlSet\\Enum\\USB\\VID_1234&PID_5678\\6&ABC"
      then .ok else .oserror,
   fun _ => .pathNotFound⟩

/- ## Helper lemmas about the rename loop -/

/-- Closed form of the rename loop: the final count adds, to the initial
count, the number of paths whose write succeeded, and the trace records for
every path the direct attempt, followed by the fallback attempt exactly when
the direct write raised. -/
theorem rename_loop_eq (env : WriteEnv) (paths : List String) (n : Nat) :
    rename_loop env paths n =
      (n + paths.countP (locationWriteSucceeds env),
       paths.map (fun p =>
         (p, if env.direct p = .ok then [WriteAttempt.directAttempt]
             else [WriteAttempt.directAttempt, WriteAttempt.fallbackAttempt]))) := by
  induction paths generalizing n with
  | nil => simp [rename_loop]
  | cons p rest ih =>
    cases hd : env.direct p with
    | ok =>
      simp only [rename_loop, hd, ih, List.countP_cons, List.map_cons, locationWriteSucceeds,
        Prod.mk.injEq]
      refine ⟨by simp only [if_true, Bool.false_eq_true, if_false]; omega, by simp [hd]⟩
    | oserror =>
      cases hf : env.fallback p <;>
        simp only [rename_loop, hd, hf, ih, List.countP_cons, List.map_cons,
          locationWriteSucceeds, Prod.mk.injEq] <;>
        exact ⟨by simp only [if_true, Bool.false_eq_true, if_false]; omega, by simp [hd]⟩

/- ## Helper lemmas about deduplication and the discovery driver -/

theorem mem_dedupFS (xs : List String) : ∀ (seen : List String) (a : String),
    a ∈ dedupFS xs seen ↔ a ∈ xs ∧ a ∉ seen := by
  induction xs with
  | nil => intro seen a; simp [dedupFS]
  | cons x rest ih =>
    intro seen a
    by_cases hx : x ∈ seen
    · rw [dedupFS, if_pos hx, ih]
      simp only [List.mem_cons]
      constructor
      · rintro ⟨h1, h2⟩; exact ⟨Or.inr h1, h2⟩
      · rintro ⟨h1 | h1, h2⟩
        · exact absurd (h1 ▸ hx) h2
        · exact ⟨h1, h2⟩
      -- the goal is about membership in the cons list
    · rw [dedupFS, if_neg hx]
      simp only [List.mem_cons, ih, List.mem_cons]
      constructor
      · rintro (rfl | ⟨h1, h2⟩)
        · exact ⟨Or.inl rfl, hx⟩
        · exact ⟨Or.inr h1, fun hs => h2 (Or.inr hs)⟩
      · rintro ⟨rfl | h1, h2⟩
        · exact Or.inl rfl
        · by_cases hax : a = x
          · exact Or.inl hax
          · exact Or.inr ⟨h1, fun hs => hs.elim hax h2⟩

theorem nodup_dedupFS (xs : List String) : ∀ seen : List String, (dedupFS xs seen).Nodup := by
  induction xs with
  | nil => intro seen; simp [dedupFS]
  | cons x rest ih =>
    intro seen
    by_cases hx : x ∈ seen
    · rw [dedupFS, if_pos hx]; exact ih seen
    · rw [dedupFS, if_neg hx, List.nodup_cons]
      refine ⟨fun hmem => ?_, ih _⟩
      rw [mem_dedupFS] at hmem
      exact hmem.2 (List.mem_cons_self x seen)

/-- First-seen deduplication is a legitimate model of `list(set(...))`. -/
theorem dedupFirstSeen_valid : PySetValid dedupFirstSeen := by
  intro xs
  refine ⟨nodup_dedupFS xs [], fun a => ?_⟩
  rw [dedupFirstSeen, mem_dedupFS]
  simp

/-- Reverse-order deduplication is also a legitimate model of
`list(set(...))`: `PySetValid` does not pin down the order, just as CPython
does not. -/
theorem revDedup_valid : PySetValid revDedup := by
  intro xs
  refine ⟨?_, fun a => ?_⟩
  · rw [revDedup, List.nodup_reverse]; exact nodup_dedupFS xs []
  · rw [revDedup, List.mem_reverse, mem_dedupFS]
    simp

/-- The path component of the driver is the filtered deduplication of the
concatenated per-strategy results. -/
theorem comprehensive_fst (env : SearchEnv) (camera : CameraDevice) (opts : SearchOptions) :
    (comprehensive_registry_search env camera opts).1 =
      (env.pySetList (strategy_registry_paths env camera opts)).filter path_filter := rfl

/-- The diagnostics component of the driver, in emission order. -/
theorem comprehensive_snd (env : SearchEnv) (camera : CameraDevice) (opts : SearchOptions) :
    (comprehensive_registry_search env camera opts).2 =
      vid_pid_emits camera opts ++ (step_device_manager camera opts).2 ++
      (step_standard_paths env camera opts).2 ++
      (step_device_classes env opts (vid_pid_of camera opts)).2 ++
      (step_usb_interfaces env opts (vid_pid_of camera opts)).2 ++
      (step_system_drivers env opts (vid_pid_of camera opts)).2 ++
      (step_control_entries env opts (vid_pid_of camera opts)).2 ++
      (step_powershell_extended env opts (vid_pid_of camera opts)).2 ++
      search_summary opts (comprehensive_registry_search env camera opts).1 ++
      (comprehensive_registry_search env camera opts).1.map (fun p => "📝 " ++ p) := rfl

/-- C4: the rename transactor reports overall success exactly when at least
one location's write succeeded — it returns `true` iff some path in the list
had a successful direct write or a successful fallback write, regardless of
how many other locations failed, and `false` when zero writes succeeded. -/
theorem update_overall_success_iff (env : WriteEnv) (backup : BackupOutcome)
    (registry_paths : List String) :
    (update_camera_name_in_registry_with_paths env backup registry_paths).1.overall = true ↔
      ∃ p ∈ registry_paths, locationWriteSucceeds env p = true := by
  simp [update_camera_name_in_registry_with_paths, rename_loop_eq,
    List.countP_pos_iff]

/-- C5: the rename outcome satisfies `success_count ≤ total_paths`, and
`total_paths` is exactly the length of the input path list; the count is a
count over paths, so each location contributes at most one success even when
both the direct and the fallback write were attempted for it. -/
theorem update_success_count_le_total (env : WriteEnv) (backup : BackupOutcome)
    (registry_paths : List String) :
    (update_camera_name_in_registry_with_paths env backup registry_paths).1.success_count ≤
        (update_camera_name_in_registry_with_paths env backup registry_paths).1.total_paths ∧
      (update_camera_name_in_registry_with_paths env backup registry_paths).1.total_paths =
        registry_paths.length := by
  refine ⟨?_, rfl⟩
  simp only [update_camera_name_in_registry_with_paths, rename_loop_eq, Nat.zero_add]
  exact List.countP_le_length _

/-- C6: the attempt trace of the rename loop covers every input location, in
order, and for each location the direct write is attempted first, with the
command-based fallback attempted exactly when the direct write raised
(`FileNotFoundError`/`PermissionError`/`OSError`); no failure aborts the
processing of the remaining locations. -/
theorem update_attempts_every_location (env : WriteEnv) (backup : BackupOutcome)
    (registry_paths : List String) :
    ((update_camera_name_in_registry_with_paths env backup registry_paths).2).map Prod.fst =
        registry_paths ∧
      (update_camera_name_in_registry_with_paths env backup registry_paths).2 =
        registry_paths.map (fun p =>
          (p, if env.direct p = .ok then [WriteAttempt.directAttempt]
              else [WriteAttempt.directAttempt, WriteAttempt.fallbackAttempt])) := by
  constructor
  · simp [update_camera_name_in_registry_with_paths, rename_loop_eq, Function.comp_def]
  · simp [update_camera_name_in_registry_with_paths, rename_loop_eq]

/-- C7: backup failure is not fatal — whatever the backup thread reported
(including a failure signalled by `BackupThread.run` for an empty backup
path or an exception), the per-location mutation loop produces the same
attempt trace and the same success count as under any other backup outcome,
and the trace covers every discovered location. -/
theorem update_runs_regardless_of_backup (env : WriteEnv) (r : CreateBackupResult)
    (b : BackupOutcome) (registry_paths : List String) :
    (update_camera_name_in_registry_with_paths env (BackupThread_run r) registry_paths).2 =
        (update_camera_name_in_registry_with_paths env b registry_paths).2 ∧
      (update_camera_name_in_registry_with_paths env (BackupThread_run r)
            registry_paths).1.success_count =
        (update_camera_name_in_registry_with_paths env b registry_paths).1.success_count ∧
      (update_camera_name_in_registry_with_paths env (BackupThread_run r)
            registry_paths).1.overall =
        (update_camera_name_in_registry_with_paths env b registry_paths).1.overall ∧
      ((update_camera_name_in_registry_with_paths env (BackupThread_run r)
            registry_paths).2).map Prod.fst = registry_paths := by
  refine ⟨rfl, rfl, rfl, ?_⟩
  simp [update_camera_name_in_registry_with_paths, rename_loop_eq, Function.comp_def]

/-- C1 (amended): the canonical enumeration location
`SYSTEM\CurrentControlSet\Enum\<instanceId>` is contained in the discovery
result whenever the `device_manager_friendly_name` strategy is enabled (the
call-site default when the key is absent) — not unconditionally: the built-in
default configuration disables that strategy, as the counterexample shows. -/
theorem canonical_in_result_of_dm_enabled (env : SearchEnv) (camera : CameraDevice)
    (opts : SearchOptions) (hvalid : PySetValid env.pySetList)
    (hdm : optGet opts "device_manager_friendly_name" true = true) :
    ("SYSTEM\\CurrentControlSet\\Enum\\" ++ camera.device_id) ∈
      (comprehensive_registry_search env camera opts).1 := by
  have hmem : ("SYSTEM\\CurrentControlSet\\Enum\\" ++ camera.device_id) ∈
      strategy_registry_paths env camera opts := by
    rw [strategy_registry_paths, step_device_manager, if_pos hdm,
      search_device_manager_friendly_name]
    simp
  rw [comprehensive_fst, List.mem_filter]
  refine ⟨((hvalid _).2 _).mpr hmem, ?_⟩
  have hpre : ("SYSTEM\\CurrentControlSet\\Enum\\" : String).length = 30 := rfl
  have hemp : ("" : String).length = 0 := rfl
  rw [path_filter, Bool.and_eq_true, decide_eq_true_iff, decide_eq_true_iff]
  constructor
  · intro h
    have h2 := congrArg String.length h
    rw [String.length_append] at h2
    omega
  · rw [String.length_append]
    omega

/-- C1 (witness): a concrete run with the strategy enabled contains the
canonical location. -/
theorem canonical_in_result_witness :
    ("SYSTEM\\CurrentControlSet\\Enum\\" ++ camA.device_id) ∈
      (comprehensive_registry_search envFS camA optsDM).1 :=
  canonical_in_result_of_dm_enabled envFS camA optsDM dedupFirstSeen_valid rfl

/-- C1 (counterexample): under the built-in default configuration of
`load_default_search_options` (which sets `device_manager_friendly_name` to
`False`) and external queries that return nothing, discovery returns the
empty sequence — it does not contain the canonical enumeration location,
refuting `unconditionally ... for every SearchStrategyConfig (including the
built-in default configuration)`.  The environment's set model
`dedupFirstSeen` satisfies `PySetValid` (`dedupFirstSeen_valid`). -/
theorem canonical_missing_under_defaults :
    (comprehensive_registry_search envFS camA load_default_search_options).1 = [] ∧
      ("SYSTEM\\CurrentControlSet\\Enum\\" ++ camA.device_id) ∉
        (comprehensive_registry_search envFS camA load_default_search_options).1 := by
  refine ⟨rfl, ?_⟩
  intro h
  rw [show (comprehensive_registry_search envFS camA load_default_search_options).1 = []
    from rfl] at h
  exact List.not_mem_nil _ h

/-- C2 (amended): when the extracted vendor/product token is empty, every
enabled token-dependent strategy returns silently — no paths and, contrary to
the claim, no per-strategy `skipped` diagnostic at all; the only diagnostic
accounting for the missing token is the single central
`Enabled but no VID/PID found` line.  The explicit `Disabled (skipped)`
lines are emitted only for strategies disabled in the configuration. -/
theorem token_strategies_silent_on_empty_token (env : SearchEnv) (camera : CameraDevice)
    (opts : SearchOptions) (q : PSResult)
    (hex : extract_vid_pid camera = "")
    (hvm : optGet opts "vid_pid_matching" true = true) :
    search_device_classes q "" = ([], []) ∧
      search_usb_interfaces q "" = ([], []) ∧
      search_system_drivers q "" = ([], []) ∧
      search_control_entries q "" = ([], []) ∧
      powershell_comprehensive_search q "" = ([], []) ∧
      vid_pid_of camera opts = "" ∧
      "🔍 VID/PID extraction: Enabled but no VID/PID found" ∈
        (comprehensive_registry_search env camera opts).2 ∧
      (optGet opts "device_classes" true = true →
        (step_device_classes env opts (vid_pid_of camera opts)).2 = []) := by
  have hvp : vid_pid_of camera opts = "" := by
    rw [vid_pid_of, if_pos hvm, hex]
  have hv : vid_pid_emits camera opts =
      ["🔍 VID/PID extraction: Enabled but no VID/PID found"] := by
    rw [vid_pid_emits, if_pos hvm, hex]
    simp
  refine ⟨rfl, rfl, rfl, rfl, rfl, hvp, ?_, ?_⟩
  · rw [comprehensive_snd, hv]
    simp
  · intro hdc
    rw [step_device_classes, if_pos hdc, hvp, search_device_classes]
    simp

/-- C2 (witness): concrete instantiation of the amended claim — the device
with an empty hardware id, `device_classes` enabled. -/
theorem token_strategies_silent_witness :
    "🔍 VID/PID extraction: Enabled but no VID/PID found" ∈
        (comprehensive_registry_search envFS camNoHw optsC2).2 ∧
      (step_device_classes envFS optsC2 (vid_pid_of camNoHw optsC2)).2 = [] :=
  ⟨(token_strategies_silent_on_empty_token envFS camNoHw optsC2 psEmpty rfl rfl).2.2.2.2.2.2.1,
   (token_strategies_silent_on_empty_token envFS camNoHw optsC2 psEmpty rfl rfl).2.2.2.2.2.2.2
     rfl⟩

/-- C2 (counterexample): the device has no vendor/product token, the
token-dependent strategy `device_classes` is enabled, yet the complete
diagnostic stream of the run — listed verbatim — contains no `skipped`
status for it (the `⏭️ ... Disabled (skipped)` lines concern only the
disabled strategies), refuting `every enabled token-dependent discovery
strategy reports an explicit "skipped" status`. -/
theorem enabled_token_strategy_reports_nothing :
    optGet optsC2 "device_classes" true = true ∧
      extract_vid_pid camNoHw = "" ∧
      (comprehensive_registry_search envFS camNoHw optsC2).2 =
        ["🔍 VID/PID extraction: Enabled but no VID/PID found",
         "⏭️ Device Manager FriendlyName: Disabled (skipped)",
         "⏭️ Standard Device Paths: Disabled (skipped)",
         "⏭️ USB Interfaces: Disabled (skipped)",
         "⏭️ System Drivers: Disabled (skipped)",
         "⏭️ Control Panel Entries: Disabled (skipped)",
         "⏭️ PowerShell Extended Search: Disabled (skipped)",
         "\n📊 Search Summary:",
         "✅ Enabled criteria: Device Classes, Vid Pid Matching",
         "⏭️ Skipped criteria: Device Manager Friendly Name, Standard Device Paths, Usb Interfaces, System Drivers, Control Entries, Powershell Extended",
         "✅ Found 0 unique registry paths"] ∧
      "⏭️ Device Classes: Disabled (skipped)" ∉
        (comprehensive_registry_search envFS camNoHw optsC2).2 := by
  refine ⟨rfl, rfl, rfl, ?_⟩
  intro h
  rw [show (comprehensive_registry_search envFS camNoHw optsC2).2 =
    ["🔍 VID/PID extraction: Enabled but no VID/PID found",
     "⏭️ Device Manager FriendlyName: Disabled (skipped)",
     "⏭️ Standard Device Paths: Disabled (skipped)",
     "⏭️ USB Interfaces: Disabled (skipped)",
     "⏭️ System Drivers: Disabled (skipped)",
     "⏭️ Control Panel Entries: Disabled (skipped)",
     "⏭️ PowerShell Extended Search: Disabled (skipped)",
     "\n📊 Search Summary:",
     "✅ Enabled criteria: Device Classes, Vid Pid Matching",
     "⏭️ Skipped criteria: Device Manager Friendly Name, Standard Device Paths, Usb Interfaces, System Drivers, Control Entries, Powershell Extended",
     "✅ Found 0 unique registry paths"] from rfl] at h
  revert h
  decide

/-- C3 (amended): the discovery result is deduplicated by exact string
equality — it contains no two equal entries, and its members are exactly the
concatenated per-strategy results that survive the length filter.  The
order, however, is the iteration order of a Python `set` and is not
guaranteed to be the first-seen order (see the counterexample). -/
theorem discovery_result_nodup (env : SearchEnv) (camera : CameraDevice)
    (opts : SearchOptions) (hvalid : PySetValid env.pySetList) :
    (comprehensive_registry_search env camera opts).1.Nodup ∧
      ∀ p : String, p ∈ (comprehensive_registry_search env camera opts).1 ↔
        p ∈ strategy_registry_paths env camera opts ∧ p ≠ "" ∧ 10 < p.length := by
  obtain ⟨hnd, hmem⟩ := hvalid (strategy_registry_paths env camera opts)
  rw [comprehensive_fst]
  refine ⟨hnd.filter _, fun p => ?_⟩
  rw [List.mem_filter, hmem, path_filter, Bool.and_eq_true, decide_eq_true_iff,
    decide_eq_true_iff]

/-- C3 (witness): concrete instantiation — the reverse-order run is
duplicate-free and contains exactly the long strategy paths. -/
theorem discovery_result_nodup_witness :
    (comprehensive_registry_search envRev camA optsC3).1.Nodup ∧
      ("SYSTEM\\ControlSet\\X\\LongPath1" ∈ (comprehensive_registry_search envRev camA optsC3).1
        ↔ "SYSTEM\\ControlSet\\X\\LongPath1" ∈ strategy_registry_paths envRev camA optsC3 ∧
          "SYSTEM\\ControlSet\\X\\LongPath1" ≠ "" ∧
          10 < ("SYSTEM\\ControlSet\\X\\LongPath1" : String).length) :=
  ⟨(discovery_result_nodup envRev camA optsC3 revDedup_valid).1,
   (discovery_result_nodup envRev camA optsC3 revDedup_valid).2 _⟩

/-- C3 (counterexample): a legitimate `list(set(...))` iteration order
(`revDedup`, proved `PySetValid` in `revDedup_valid`) makes discovery return
the two retained locations in the reverse of their first-occurrence order in
the concatenated per-strategy results, refuting `the retained entries appear
in the order of their first occurrence`.  Python's set order is hash based
and not the insertion order, so the code does not guarantee the claimed
order. -/
theorem discovery_order_not_first_seen :
    strategy_registry_paths envRev camA optsC3 =
        ["SYSTEM\\CurrentControlSet\\Enum\\USB\\VID_1234&PID_5678\\6&ABC",
         "SYSTEM\\ControlSet\\X\\LongPath1"] ∧
      (comprehensive_registry_search envRev camA optsC3).1 =
        ["SYSTEM\\ControlSet\\X\\LongPath1",
         "SYSTEM\\CurrentControlSet\\Enum\\USB\\VID_1234&PID_5678\\6&ABC"] ∧
      (comprehensive_registry_search envRev camA optsC3).1 ≠
        ["SYSTEM\\CurrentControlSet\\Enum\\USB\\VID_1234&PID_5678\\6&ABC",
         "SYSTEM\\ControlSet\\X\\LongPath1"] := by
  refine ⟨rfl, rfl, ?_⟩
  decide

/-- C10: every element of the discovery result is a non-empty string of
length strictly greater than 10 — the final filter discards every candidate
of length 10 or less, for every device record, configuration and
environment. -/
theorem discovery_result_paths_long (env : SearchEnv) (camera : CameraDevice)
    (opts : SearchOptions) (p : String)
    (hp : p ∈ (comprehensive_registry_search env camera opts).1) :
    p ≠ "" ∧ 10 < p.length := by
  rw [comprehensive_fst, List.mem_filter, path_filter, Bool.and_eq_true,
    decide_eq_true_iff, decide_eq_true_iff] at hp
  exact hp.2

/-- C10 (witness): the canonical path of the concrete run is non-empty and
longer than 10 characters. -/
theorem discovery_result_paths_long_witness :
    ("SYSTEM\\CurrentControlSet\\Enum\\USB\\VID_1234&PID_5678\\6&ABC" : String) ≠ "" ∧
      10 < ("SYSTEM\\CurrentControlSet\\Enum\\USB\\VID_1234&PID_5678\\6&ABC" : String).length :=
  discovery_result_paths_long envFS camA optsDM _ (by decide)

/-- C8: a rename request whose trimmed name is empty, longer than 255
characters, or identical to the device's current friendly name is rejected
synchronously by the validation of `rename_selected_camera`: the result is
never the `startSearch` branch, which is the only branch that creates and
starts the search worker thread (and hence the only route to discovery and
store access). -/
theorem rename_validation_rejects (camera : CameraDevice) (raw_name : String)
    (h : pyStrip raw_name = "" ∨ 255 < (pyStrip raw_name).length ∨
      pyStrip raw_name = camera.friendly_name) :
    ∀ (c : CameraDevice) (n : String),
      rename_selected_camera (some camera) raw_name ≠ .startSearch c n := by
  intro c n
  rw [rename_selected_camera]
  rcases h with h | h | h
  · rw [if_pos h]; simp
  · by_cases h0 : pyStrip raw_name = ""
    · rw [if_pos h0]; simp
    · rw [if_neg h0, if_pos h]; simp
  · by_cases h0 : pyStrip raw_name = ""
    · rw [if_pos h0]; simp
    · by_cases h1 : 255 < (pyStrip raw_name).length
      · rw [if_neg h0, if_pos h1]; simp
      · rw [if_neg h0, if_neg h1, if_pos h]; simp

/-- C8 (witness): a whitespace-only name is rejected for the concrete
device. -/
theorem rename_validation_rejects_witness :
    rename_selected_camera (some camA) "   " ≠ .startSearch camA "Old Cam" :=
  rename_validation_rejects camA "   " (Or.inl (by decide)) camA "Old Cam"

/- ## Helper lemmas about the VID/PID scanner -/

theorem ciEqList_length : ∀ {a b : List Char}, ciEqList a b = true → a.length = b.length := by
  intro a
  induction a with
  | nil =>
    intro b h
    cases b with
    | nil => rfl
    | cons y ys => simp [ciEqList] at h
  | cons x xs ih =>
    intro b h
    cases b with
    | nil => simp [ciEqList] at h
    | cons y ys =>
      rw [ciEqList, Bool.and_eq_true] at h
      simp [ih h.2]

theorem matchLit_some_iff : ∀ (pat l r : List Char),
    matchLit pat l = some r ↔ ∃ s, l = s ++ r ∧ ciEqList s pat = true := by
  intro pat
  induction pat with
  | nil =>
    intro l r
    rw [matchLit]
    constructor
    · intro h
      exact ⟨[], (Option.some.inj h).symm ▸ rfl, rfl⟩
    · rintro ⟨s, heq, hs⟩
      cases s with
      | nil => rw [heq]; rfl
      | cons x xs => simp [ciEqList] at hs
  | cons p ps ih =>
    intro l r
    cases l with
    | nil =>
      rw [matchLit]
      constructor
      · intro h; simp at h
      · rintro ⟨s, heq, hs⟩
        cases s with
        | nil => simp [ciEqList] at hs
        | cons x xs => simp at heq
    | cons c cs =>
      rw [matchLit]
      by_cases hc : ciEqChar c p = true
      · rw [if_pos hc, ih]
        constructor
        · rintro ⟨s, heq, hs⟩
          exact ⟨c :: s, by rw [heq]; rfl, by rw [ciEqList, Bool.and_eq_true]; exact ⟨hc, hs⟩⟩
        · rintro ⟨s, heq, hs⟩
          cases s with
          | nil => simp [ciEqList] at hs
          | cons x xs =>
            obtain ⟨hx, hcs⟩ := List.cons.inj heq
            rw [ciEqList, Bool.and_eq_true] at hs
            exact ⟨xs, hcs, by rw [← hx] at hs; exact hs.2⟩
      · rw [if_neg hc]
        constructor
        · intro h; simp at h
        · rintro ⟨s, heq, hs⟩
          cases s with
          | nil => simp [ciEqList] at hs
          | cons x xs =>
            obtain ⟨hx, _⟩ := List.cons.inj heq
            rw [ciEqList, Bool.and_eq_true] at hs
            exact absurd (hx ▸ hs.1) hc

theorem takeHex_some_iff : ∀ (n : Nat) (l d r : List Char),
    takeHex n l = some (d, r) ↔
      l = d ++ r ∧ d.length = n ∧ ∀ c ∈ d, isHexDigitCI c = true := by
  intro n
  induction n with
  | zero =>
    intro l d r
    rw [takeHex]
    constructor
    · intro h
      simp only [Option.some.injEq, Prod.mk.injEq] at h
      obtain ⟨rfl, rfl⟩ := h
      simp
    · rintro ⟨rfl, hlen, _⟩
      have hd : d = [] := List.length_eq_zero.mp hlen
      subst hd
      rfl
  | succ n ih =>
    intro l d r
    cases l with
    | nil =>
      rw [takeHex]
      constructor
      · intro h; simp at h
      · rintro ⟨heq, hlen, _⟩
        have hd := (List.append_eq_nil.mp heq.symm).1
        rw [hd] at hlen
        simp at hlen
    | cons c cs =>
      rw [takeHex]
      by_cases hc : isHexDigitCI c = true
      · rw [if_pos hc]
        cases htk : takeHex n cs with
        | none =>
          constructor
          · intro h; simp at h
          · rintro ⟨heq, hlen, hhex⟩
            cases d with
            | nil => simp at hlen
            | cons x xs =>
              obtain ⟨hx, hcs⟩ := List.cons.inj heq
              have h2 : takeHex n cs = some (xs, r) :=
                (ih cs xs r).mpr ⟨hcs, by simpa using hlen,
                  fun ch hch => hhex ch (List.mem_cons_of_mem _ hch)⟩
              rw [htk] at h2
              simp at h2
        | some dr =>
          obtain ⟨hcs, hlen', hhex'⟩ := (ih cs dr.1 dr.2).mp (by rw [htk])
          constructor
          · intro h
            simp only [Option.some.injEq, Prod.mk.injEq] at h
            obtain ⟨rfl, rfl⟩ := h
            refine ⟨by rw [hcs]; rfl, by simp [hlen'], ?_⟩
            intro ch hch
            rcases List.mem_cons.mp hch with rfl | hch2
            · exact hc
            · exact hhex' ch hch2
          · rintro ⟨heq, hlen, hhex⟩
            cases d with
            | nil => simp at hlen
            | cons x xs =>
              obtain ⟨hx, hcs2⟩ := List.cons.inj heq
              have h2 : takeHex n cs = some (xs, r) :=
                (ih cs xs r).mpr ⟨hcs2, by simpa using hlen,
                  fun ch hch => hhex ch (List.mem_cons_of_mem _ hch)⟩
              rw [htk] at h2
              simp only [Option.some.injEq] at h2
              rw [h2, hx]
      · rw [if_neg hc]
        constructor
        · intro h; simp at h
        · rintro ⟨heq, hlen, hhex⟩
          cases d with
          | nil => simp at hlen
          | cons x xs =>
            obtain ⟨hx, _⟩ := List.cons.inj heq
            exact absurd (hx ▸ hhex x (List.mem_cons_self x xs)) hc

theorem matchVidPidAt_some_iff (l d1 d2 : List Char) :
    matchVidPidAt l = some (d1, d2) ↔ VidPidDecompAt l d1 d2 := by
  constructor
  · intro h
    rw [matchVidPidAt] at h
    cases h1 : matchLit vidLit l with
    | none => rw [h1, Option.none_bind] at h; simp at h
    | some r1 =>
      rw [h1, Option.some_bind] at h
      cases h2 : takeHex 4 r1 with
      | none => rw [h2, Option.none_bind] at h; simp at h
      | some d1r =>
        rw [h2, Option.some_bind] at h
        cases h3 : matchLit ampPidLit d1r.2 with
        | none => rw [h3, Option.none_bind] at h; simp at h
        | some r3 =>
          rw [h3, Option.some_bind] at h
          cases h4 : takeHex 4 r3 with
          | none => rw [h4, Option.none_bind] at h; simp at h
          | some d2r =>
            rw [h4, Option.some_bind] at h
            simp only [Option.some.injEq, Prod.mk.injEq] at h
            obtain ⟨hd1, hd2⟩ := h
            obtain ⟨v, hlv, hv⟩ := (matchLit_some_iff vidLit l r1).mp h1
            obtain ⟨hr1, hlen1, hhex1⟩ := (takeHex_some_iff 4 r1 d1r.1 d1r.2).mp (by rw [h2])
            obtain ⟨m, hlm, hm⟩ := (matchLit_some_iff ampPidLit d1r.2 r3).mp h3
            obtain ⟨hr3, hlen2, hhex2⟩ := (takeHex_some_iff 4 r3 d2r.1 d2r.2).mp (by rw [h4])
            subst hd1 hd2
            refine ⟨v, m, d2r.2, ?_, hv, hm, hlen1, hlen2, hhex1, hhex2⟩
            rw [hlv, hr1, hlm, hr3]
            simp [List.append_assoc]
  · rintro ⟨v, m, suf, rfl, hv, hm, h1len, h2len, h1hex, h2hex⟩
    have e1 : matchLit vidLit (v ++ (d1 ++ (m ++ (d2 ++ suf)))) =
        some (d1 ++ (m ++ (d2 ++ suf))) :=
      (matchLit_some_iff _ _ _).mpr ⟨v, rfl, hv⟩
    have e2 : takeHex 4 (d1 ++ (m ++ (d2 ++ suf))) = some (d1, m ++ (d2 ++ suf)) :=
      (takeHex_some_iff _ _ _ _).mpr ⟨rfl, h1len, h1hex⟩
    have e3 : matchLit ampPidLit (m ++ (d2 ++ suf)) = some (d2 ++ suf) :=
      (matchLit_some_iff _ _ _).mpr ⟨m, rfl, hm⟩
    have e4 : takeHex 4 (d2 ++ suf) = some (d2, suf) :=
      (takeHex_some_iff _ _ _ _).mpr ⟨rfl, h2len, h2hex⟩
    rw [matchVidPidAt]
    simp only [List.append_assoc]
    rw [e1, Option.some_bind, e2, Option.some_bind, e3, Option.some_bind, e4,
      Option.some_bind]

theorem not_hasVidPid_nil : ¬ HasVidPid ([] : List Char) := by
  rintro ⟨d1, d2, pre, rest, heq, v, m, suf, hrest, hv, _, _, _, _, _⟩
  have h1 : rest = [] := (List.append_eq_nil.mp heq.symm).2
  rw [h1] at hrest
  have h2 := (List.append_eq_nil.mp hrest.symm).1
  have h3 := (List.append_eq_nil.mp h2).1
  have h4 := (List.append_eq_nil.mp h3).1
  have h5 := (List.append_eq_nil.mp h4).1
  have hvlen := ciEqList_length hv
  rw [h5] at hvlen
  simp [vidLit] at hvlen

theorem scanVidPid_some (l : List Char) (d1 d2 : List Char)
    (h : scanVidPid l = some (d1, d2)) : VidPidDecomp l d1 d2 := by
  induction l with
  | nil => simp [scanVidPid] at h
  | cons c cs ih =>
    rw [scanVidPid] at h
    cases hm : matchVidPidAt (c :: cs) with
    | some r =>
      rw [hm] at h
      obtain rfl : r = (d1, d2) := Option.some.inj h
      exact ⟨[], c :: cs, rfl, (matchVidPidAt_some_iff _ _ _).mp hm⟩
    | none =>
      rw [hm] at h
      obtain ⟨pre, rest, heq, hat⟩ := ih h
      exact ⟨c :: pre, rest, by rw [heq]; rfl, hat⟩

theorem scanVidPid_none (l : List Char) (h : scanVidPid l = none) : ¬ HasVidPid l := by
  induction l with
  | nil => exact fun hh => not_hasVidPid_nil hh
  | cons c cs ih =>
    rw [scanVidPid] at h
    cases hm : matchVidPidAt (c :: cs) with
    | some r => rw [hm] at h; simp at h
    | none =>
      rw [hm] at h
      rintro ⟨d1, d2, pre, rest, heq, hat⟩
      cases pre with
      | nil =>
        have hrest : rest = c :: cs := by simpa using heq.symm
        have := (matchVidPidAt_some_iff (c :: cs) d1 d2).mpr (hrest ▸ hat)
        rw [hm] at this
        simp at this
      | cons x xs =>
        obtain ⟨_, hcs⟩ := List.cons.inj heq
        exact ih h ⟨d1, d2, xs, rest, hcs, hat⟩

/-- C9: characterisation of `extract_vid_pid`.  When the hardware id
contains the case-insensitive pattern `VID_hhhh&PID_hhhh` (two 4-hex-digit
groups joined by the fixed markers, per `VidPidDecomp`), the result is
exactly `"VID_" ++ group1 ++ "&PID_" ++ group2` for groups genuinely embedded
in the hardware id (with their original case); when the hardware id is empty
or contains no such pattern, the result is the empty string. -/
theorem extract_vid_pid_correct (camera : CameraDevice) :
    (HasVidPid camera.hardware_id.data →
      ∃ d1 d2, VidPidDecomp camera.hardware_id.data d1 d2 ∧
        extract_vid_pid camera = "VID_" ++ String.mk d1 ++ "&PID_" ++ String.mk d2) ∧
      (¬ HasVidPid camera.hardware_id.data → extract_vid_pid camera = "") := by
  constructor
  · intro hhas
    have hne : camera.hardware_id ≠ "" := by
      intro h
      rw [h] at hhas
      exact not_hasVidPid_nil hhas
    simp only [extract_vid_pid, if_neg hne]
    cases hscan : scanVidPid camera.hardware_id.data with
    | none => exact absurd hhas (scanVidPid_none _ hscan)
    | some g => exact ⟨g.1, g.2, scanVidPid_some _ g.1 g.2 hscan, rfl⟩
  · intro hnot
    by_cases hemp : camera.hardware_id = ""
    · simp only [extract_vid_pid, if_pos hemp]
    · simp only [extract_vid_pid, if_neg hemp]
      cases hscan : scanVidPid camera.hardware_id.data with
      | none => rfl
      | some g => exact absurd ⟨g.1, g.2, scanVidPid_some _ g.1 g.2 hscan⟩ hnot

/-- C9 (witness): a mixed-case hardware id containing the pattern; the
theorem yields groups with their original case embedded in the id. -/
theorem extract_vid_pid_correct_witness :
    HasVidPid ("USB\\Vid_0a5C&pid_4500".data) ∧
      ∃ d1 d2, VidPidDecomp camHw.hardware_id.data d1 d2 ∧
        extract_vid_pid camHw = "VID_" ++ String.mk d1 ++ "&PID_" ++ String.mk d2 :=
  ⟨⟨"0a5C".data, "4500".data, "USB\\".data, "Vid_0a5C&pid_4500".data, by decide,
    "Vid_".data, "&pid_".data, [], by decide, by decide, by decide, by decide, by decide,
    by decide, by decide⟩,
   (extract_vid_pid_correct camHw).1
    ⟨"0a5C".data, "4500".data, "USB\\".data, "Vid_0a5C&pid_4500".data, by decide,
     "Vid_".data, "&pid_".data, [], by decide, by decide, by decide, by decide, by decide,
     by decide, by decide⟩⟩

end CamRenamer
